import Mathlib

/-!
Verification of the ReqPM build-orchestration core against its specification.

The Lean definitions below are shallow embeddings of the Python source:
  * `backend/apps/builds/concurrency.py`  — Redis-backed job semaphore
  * `backend/reqpm/celery.py`             — worker-startup orphan recovery
  * `backend/core/error_analyzer.py`      — build-log error classifier
  * `backend/apps/packages/tasks.py`      — build pipeline task and
                                            waiting-build re-trigger
  * `backend/apps/packages/views.py`      — build-request endpoint
  * `backend/core/requirements_parser.py` — build-order computation
-/

namespace ReqPM

/-! ## Concurrency gate (`backend/apps/builds/concurrency.py`)

The shared store is a single Redis set key (`reqpm:job:semaphore`).  We model
its state as the duplicate-free list of members plus the key's remaining
time-to-live in seconds (`none` when the key has no expiry or is absent).
Redis command semantics used by the source: `scard` is the member count,
`sadd` inserts a member (no-op when present), `srem` removes a member (the key
disappears when the set empties), `expire` (re)sets the key TTL, `del` drops
the key, and an elapsed TTL deletes the whole key. -/

structure SemState where
  members : List String
  ttl : Option Nat
deriving DecidableEq, Repr

/-- `self.lock_timeout = 7200  # 2 hours max per job` -/
def lock_timeout : Nat := 7200

/-- `get_active_count`: `scard` on the semaphore key. -/
def get_active_count (s : SemState) : Nat :=
  s.members.length

/-- `_ACQUIRE_LUA`: the atomic check-and-reserve script.  If the set size is
below the cap it adds the job id, refreshes the key TTL and returns 1 (true);
otherwise it returns 0 (false) and leaves the store untouched. -/
def acquireScript (max_concurrent : Nat) (s : SemState) (job_id : String) :
    Bool × SemState :=
  if s.members.length < max_concurrent then
    let members :=
      if s.members.contains job_id then s.members else s.members ++ [job_id]
    (true, { members := members, ttl := some lock_timeout })
  else
    (false, s)

/-- `srem` on the semaphore key (used by the context managers' `finally`
clauses and by `force_release`). -/
def sremState (s : SemState) (job_id : String) : SemState :=
  let members := s.members.filter (fun m => m ≠ job_id)
  { members := members, ttl := if members.isEmpty then none else s.ttl }

/-- `clear_all`: `del` on the semaphore key. -/
def clear_allState (_s : SemState) : SemState :=
  { members := [], ttl := none }

/-- `d` seconds elapse with no intervening commands: if the key's TTL runs
out, Redis deletes the key (all members vanish at once). -/
def tickState (d : Nat) (s : SemState) : SemState :=
  match s.ttl with
  | none => s
  | some t =>
      if t ≤ d then { members := [], ttl := none }
      else { members := s.members, ttl := some (t - d) }

/-- One atomic operation against the shared store, as issued by some caller.
Since every admission attempt is the single Lua script invocation, an
arbitrary interleaving of concurrent `acquire`/`try_acquire`/`release`
callers is a sequence of these operations. -/
inductive SemOp where
  | acquire (job_id : String)
  | release (job_id : String)
  | forceRelease (job_id : String)
  | clearAll
  | tick (d : Nat)
deriving DecidableEq, Repr

def semStep (max_concurrent : Nat) (s : SemState) : SemOp → SemState
  | .acquire j => (acquireScript max_concurrent s j).2
  | .release j => sremState s j
  | .forceRelease j => sremState s j
  | .clearAll => clear_allState s
  | .tick d => tickState d s

def semRun (max_concurrent : Nat) (s : SemState) (ops : List SemOp) : SemState :=
  ops.foldl (semStep max_concurrent) s

/-- Whether the `with`-block body returned normally or raised. -/
inductive BodyOutcome where
  | normal
  | raises
deriving DecidableEq, Repr

/-- Observable exit of one of the context managers: whether a slot was
admitted, whether an exception propagates out of the `with` block, and the
store state after the `finally` clause ran. -/
structure CMExit where
  admitted : Bool
  raises : Bool
  state : SemState
deriving DecidableEq, Repr

/-- `try_acquire(job_id)`: a single script attempt.  On success the body runs
(`bodyOps` are the store operations other actors perform while it does, and
`outcome` says whether the body raises) and the `finally` clause does
`srem(job_id)`.  On failure a `TimeoutError` is raised and the `finally`
clause releases nothing (`acquired` is false). -/
def try_acquireCM (max_concurrent : Nat) (s : SemState) (job_id : String)
    (bodyOps : List SemOp) (outcome : BodyOutcome) : CMExit :=
  match acquireScript max_concurrent s job_id with
  | (true, s1) =>
      let s2 := semRun max_concurrent s1 bodyOps
      { admitted := true
        raises := outcome == BodyOutcome.raises
        state := sremState s2 job_id }
  | (false, s1) =>
      { admitted := false, raises := true, state := s1 }

/-- The admission loop of the blocking `acquire(job_id, timeout)`: repeat the
script until it succeeds or the timeout elapses (`fuel` counts the remaining
attempts before the timeout check fires).  `envs` lists the store operations
other actors perform during each inter-attempt sleep. -/
def acquireLoop (max_concurrent : Nat) (job_id : String) :
    Nat → SemState → List (List SemOp) → Bool × SemState
  | 0, s, _ => (false, s)
  | Nat.succ fuel, s, envs =>
      match acquireScript max_concurrent s job_id with
      | (true, s1) => (true, s1)
      | (false, s1) =>
          acquireLoop max_concurrent job_id fuel
            (semRun max_concurrent s1 envs.headI) envs.tail

/-- `acquire(job_id, timeout)` as a context manager: loop for admission; once
admitted, run the body and release in the `finally` clause; on timeout raise
`TimeoutError` with nothing to release. -/
def acquireCM (max_concurrent : Nat) (s : SemState) (job_id : String)
    (fuel : Nat) (envs : List (List SemOp)) (bodyOps : List SemOp)
    (outcome : BodyOutcome) : CMExit :=
  match acquireLoop max_concurrent job_id fuel s envs with
  | (true, s1) =>
      let s2 := semRun max_concurrent s1 bodyOps
      { admitted := true
        raises := outcome == BodyOutcome.raises
        state := sremState s2 job_id }
  | (false, s1) =>
      { admitted := false, raises := true, state := s1 }

/-! ## Build-log error classifier (`backend/core/error_analyzer.py`)

`BuildErrorAnalyzer.analyze` runs `re.findall(pattern, log, IGNORECASE |
MULTILINE)` for a fixed ordered table of patterns.  No pattern uses `^`/`$`
(so the MULTILINE flag is inert) and every repetition operator in the table
applies to a single-character item (`.`, `[a-z]`, `\s`), so the fragment of
Python's regex language actually exercised is: case-insensitive literals,
single-character classes, greedy `*`/`+` over a class, alternation with
leftmost preference, and at most one capturing group per pattern.  The
backtracking matcher below implements exactly that fragment. -/

/-- Single-character items of the patterns: `.` (anything but newline),
`\s`, or an explicit set (compared case-insensitively). -/
inductive CharCls where
  | dot
  | space
  | oneOf (cs : List Char)
deriving DecidableEq, Repr

def clsMatch : CharCls → Char → Bool
  | .dot, c => c ≠ '\n'
  | .space, c =>
      c = ' ' || c = '\t' || c = '\n' || c = '\r' || c = '\x0b' || c = '\x0c'
  | .oneOf cs, c => cs.contains c.toLower

/-- Regex abstract syntax for the analyzer's patterns.  Literals are stored
lowercased; matching lowercases the subject (the IGNORECASE flag). -/
inductive Rx where
  | lit (cs : List Char)
  | cls (c : CharCls)
  | star (c : CharCls)
  | plus (c : CharCls)
  | grp (r : Rx)
  | cat (a b : Rx)
  | alt (a b : Rx)
deriving DecidableEq, Repr

/-- Case-insensitive literal match; returns the remaining subject. -/
def litMatch : List Char → List Char → Option (List Char)
  | [], s => some s
  | _ :: _, [] => none
  | c :: cs, d :: ds => if c = d.toLower then litMatch cs ds else none

/-- Length of the maximal prefix run of characters matching `c`. -/
def runLen (c : CharCls) : List Char → Nat
  | [] => 0
  | d :: ds => if clsMatch c d then runLen c ds + 1 else 0

/-- A match attempt result: the remaining subject after the overall match and
the text captured by the (single) group, if any. -/
def MR := List Char × Option (List Char)

/-- Greedy backtracking over a character run: try the continuation after
consuming `i` characters, for `i` from the given bound down to 0. -/
def starTry (k : List Char → Option MR) (s : List Char) : Nat → Option MR
  | 0 => k s
  | i + 1 =>
      match k (s.drop (i + 1)) with
      | some r => some r
      | none => starTry k s i

/-- Like `starTry` but requiring at least one consumed character. -/
def plusTry (k : List Char → Option MR) (s : List Char) : Nat → Option MR
  | 0 => none
  | i + 1 =>
      match k (s.drop (i + 1)) with
      | some r => some r
      | none => plusTry k s i

/-- Backtracking matcher in continuation-passing style, mirroring Python's
leftmost-preference greedy semantics on the fragment above.  Recursion is on
`fuel`; every recursive call is on a proper subterm of the pattern, so any
fuel at least the pattern size is enough and the result is then
fuel-independent. -/
def mtch : Nat → Rx → List Char → Option (List Char) →
    (List Char → Option (List Char) → Option MR) → Option MR
  | 0, _, _, _, _ => none
  | _ + 1, .lit l, s, cap, k =>
      match litMatch l s with
      | some rest => k rest cap
      | none => none
  | _ + 1, .cls c, s, cap, k =>
      match s with
      | [] => none
      | d :: ds => if clsMatch c d then k ds cap else none
  | _ + 1, .star c, s, cap, k =>
      starTry (fun rest => k rest cap) s (runLen c s)
  | _ + 1, .plus c, s, cap, k =>
      plusTry (fun rest => k rest cap) s (runLen c s)
  | fuel + 1, .grp r, s, cap, k =>
      mtch fuel r s cap
        (fun rest _ => k rest (some (s.take (s.length - rest.length))))
  | fuel + 1, .cat a b, s, cap, k =>
      mtch fuel a s cap (fun rest cap1 => mtch fuel b rest cap1 k)
  | fuel + 1, .alt a b, s, cap, k =>
      match mtch fuel a s cap k with
      | some r => some r
      | none => mtch fuel b s cap k

/-- Attempt a match of `r` anchored at the start of `s`. -/
def matchAt (r : Rx) (s : List Char) : Option MR :=
  mtch 1000 r s none (fun rest cap => some (rest, cap))

/-- `re.findall` scanning: try each position left to right; after a match
resume at its end (or one past it when it was empty).  With one capturing
group the group text is collected, otherwise the whole match. -/
def findAllAux (r : Rx) (hasGrp : Bool) (s : List Char) :
    Nat → Nat → List (List Char)
  | 0, _ => []
  | fuel + 1, pos =>
      if pos > s.length then []
      else
        match matchAt r (s.drop pos) with
        | some (rest, cap) =>
            let consumed := (s.length - pos) - rest.length
            let item :=
              if hasGrp then cap.getD [] else (s.drop pos).take consumed
            item ::
              findAllAux r hasGrp s fuel
                (if consumed = 0 then pos + 1 else pos + consumed)
        | none => findAllAux r hasGrp s fuel (pos + 1)

def findAll (r : Rx) (hasGrp : Bool) (s : List Char) : List (List Char) :=
  findAllAux r hasGrp s (s.length + 1) 0

/-- One row of `_initialize_patterns`. -/
structure ErrPattern where
  pat : Rx
  hasGrp : Bool
  category : String
  suggestion : Option String

/-- `BuildError` dataclass: category, message, suggestion, matched items. -/
structure BuildError where
  category : String
  message : String
  suggestion : Option String
  items : List String
deriving DecidableEq, Repr

def rlit (s : String) : Rx :=
  .lit (s.toList.map Char.toLower)

def rdotPlus : Rx := .plus .dot

def rcat : List Rx → Rx
  | [] => .lit []
  | [r] => r
  | r :: rs => .cat r (rcat rs)

/-- A single-quote character (`'`). -/
def sq : Char := Char.ofNat 39

def sqs : String := String.mk [sq]

/-- The ordered pattern table of `_initialize_patterns`, one entry per row,
in Python dict insertion order. -/
def patternTable : List ErrPattern :=
  [ { pat := rcat [rlit "nothing provides requested ", .grp rdotPlus]
      hasGrp := true
      category := "Missing Dependencies"
      suggestion := some "Add missing dependencies to spec file Requires/BuildRequires" }
  , { pat := rcat [rlit "No matching package to install: ", .grp rdotPlus]
      hasGrp := true
      category := "Missing Packages"
      suggestion := some "Package not available in repositories, may need to be built first" }
  , { pat := rcat [rlit "No module named ", .cls (.oneOf [sq, '"']),
        .grp rdotPlus, .cls (.oneOf [sq, '"'])]
      hasGrp := true
      category := "Missing Python Modules"
      suggestion := some "Add Python module as BuildRequires (python3-\x7bmodule\x7d)" }
  , { pat := rcat [rlit "fatal error: ", .grp rdotPlus,
        rlit ": No such file or directory"]
      hasGrp := true
      category := "Missing Header Files"
      suggestion := some "Install development packages for required libraries" }
  , { pat := rlit "ambiguous python shebang"
      hasGrp := false
      category := "Ambiguous Python Shebang"
      suggestion := some "Run fixpythonshebangs to correct Python shebangs" }
  , { pat := rcat [rlit "Empty %files file", .star .dot,
        rlit "debugsourcefiles.list"]
      hasGrp := false
      category := "Empty Debug Info"
      suggestion := some "Remove debug package generation (add %global debug_package %\x7bnil\x7d)" }
  , { pat := rlit "Cargo, the Rust package manager, is not installed"
      hasGrp := false
      category := "Missing Rust/Cargo"
      suggestion := some "Add rust and cargo as BuildRequires" }
  , { pat := rlit ("error: invalid command " ++ sqs ++ "bdist_wheel" ++ sqs)
      hasGrp := false
      category := "Missing Python Wheel"
      suggestion := some "Add python3-wheel as BuildRequires" }
  , { pat := rlit ("error: command " ++ sqs ++ "gcc" ++ sqs ++
        " failed: No such file or directory")
      hasGrp := false
      category := "Missing GCC"
      suggestion := some "Add gcc as BuildRequires" }
  , { pat := rlit "Arch dependent binaries in noarch package"
      hasGrp := false
      category := "Architecture Mismatch"
      suggestion := some "Remove BuildArch: noarch from spec file (package contains binaries)" }
  , { pat := rlit "bad interpreter: No such file or directory"
      hasGrp := false
      category := "Bad Interpreter"
      suggestion := some "Fix shebang lines in scripts" }
  , { pat := rlit "Permission denied"
      hasGrp := false
      category := "Permission Denied"
      suggestion := some "Check file permissions and build directory access" }
  , { pat := rlit "No space left on device"
      hasGrp := false
      category := "Disk Space"
      suggestion := some "Free up disk space on build server" }
  , { pat := .grp (.alt (rlit "Connection refused")
        (.alt (rlit "Connection timed out") (rlit "Network is unreachable")))
      hasGrp := true
      category := "Network Error"
      suggestion := some "Check network connectivity and repository availability" }
  , { pat := rcat [rlit "Bad file: ", rdotPlus,
        rlit ": No such file or directory"]
      hasGrp := false
      category := "Source File Missing"
      suggestion := some "Run fetch_source to download source files, or check Source0 URL in spec" }
  , { pat := rcat [rlit "Macro ", rdotPlus, rlit " has illegal name"]
      hasGrp := false
      category := "RPM Macro Error"
      suggestion := some "Fix macro syntax in spec file" }
  , { pat := rcat [.grp (.alt (rlit "SyntaxError") (rlit "IndentationError")),
        rlit ": ", rdotPlus]
      hasGrp := true
      category := "Python Syntax Error"
      suggestion := some "Fix Python code syntax errors in package" }
  , { pat := rcat [rlit "ImportError: ", rdotPlus]
      hasGrp := false
      category := "Python Import Error"
      suggestion := some "Ensure all required Python dependencies are installed" }
  , { pat := rcat [.grp (.alt (rlit "FAILED") (rlit "ERROR")), rlit " ",
        rdotPlus, rlit " test"]
      hasGrp := true
      category := "Test Failures"
      suggestion := some "Fix failing tests or disable tests with --nocheck" }
  , { pat := rcat [rlit "file ", rdotPlus,
        rlit " conflicts between attempted installs"]
      hasGrp := false
      category := "File Conflicts"
      suggestion := some "Resolve file conflicts between packages" }
  , { pat := rcat [rlit "Installed ", rdotPlus, rlit " but unpackaged ",
        rdotPlus, rlit " :", .plus .space, .grp rdotPlus]
      hasGrp := true
      category := "Unpackaged Files"
      suggestion := some "Add missing files to %files section in spec" }
  , { pat := .grp (.alt (rlit "Bad exit status from")
        (rcat [rlit "error: %",
          .plus (.oneOf "abcdefghijklmnopqrstuvwxyz".toList),
          rlit " scriptlet failed"]))
      hasGrp := true
      category := "Scriplet Error"
      suggestion := some "Fix errors in %pre, %post, %preun, or %postun scripts" }
  ]

def isPyWs (c : Char) : Bool :=
  c = ' ' || c = '\t' || c = '\n' || c = '\r' || c = '\x0b' || c = '\x0c'

/-- Python `str.strip()`. -/
def stripWs (s : List Char) : List Char :=
  ((s.dropWhile isPyWs).reverse.dropWhile isPyWs).reverse

/-- The dedup loop of `analyze`: strip each item, drop empties, keep the
first occurrence of each distinct cleaned item in order. -/
def dedupeStrip (items : List (List Char)) : List String :=
  items.foldl
    (fun acc item =>
      let clean := String.mk (stripWs item)
      if clean ≠ "" && !acc.contains clean then acc ++ [clean] else acc)
    []

/-- `BuildErrorAnalyzer.analyze`: run every pattern over the log, turn the
matches of each pattern that fired into a `BuildError` (deduplicated items,
capped at 10), in table order. -/
def analyze (log_output : String) : List BuildError :=
  patternTable.foldl
    (fun errors p =>
      let found := findAll p.pat p.hasGrp log_output.toList
      if found.isEmpty then errors
      else
        let unique_items := dedupeStrip found
        if unique_items.isEmpty then errors
        else
          errors ++
            [{ category := p.category
               message :=
                 "Found " ++ toString unique_items.length ++ " occurrence(s)"
               suggestion := p.suggestion
               items := unique_items.take 10 }])
    []

/-! ## Package records and the build pipeline task
(`backend/apps/packages/models.py`, `backend/apps/packages/tasks.py`) -/

/-- The `build_status` values used by the code (`not_required` appears only
in dependency-readiness checks). -/
inductive BuildStatus where
  | not_built
  | waiting_for_deps
  | pending
  | building
  | completed
  | failed
  | not_required
deriving DecidableEq, Repr

/-- The fields of a `Package` row that the modelled code reads or writes.
Timestamps are tracked only as "set or null"; `deps` holds the ids of the
`depends_on` targets of the package's `PackageDependency` rows. -/
structure Package where
  id : Nat
  hasSpec : Bool
  sourceFetched : Bool
  buildStatus : BuildStatus
  startedAtSet : Bool
  completedAtSet : Bool
  buildLog : String
  buildErrorMessage : String
  analyzedErrors : List BuildError
  srpmPath : String
  rpmPath : Option String
  deps : List Nat
deriving DecidableEq, Repr

/-- `reset_orphaned_builds` (`backend/reqpm/celery.py`, `worker_ready`
signal): reset every package whose status is in
`['pending', 'building', 'waiting_for_deps']` and clear the semaphore. -/
def reset_orphaned_builds (db : List Package) (sem : SemState) :
    List Package × SemState :=
  (db.map fun p =>
      if ([.pending, .building, .waiting_for_deps] :
          List BuildStatus).contains p.buildStatus then
        { p with
          buildStatus := .not_built
          startedAtSet := false
          completedAtSet := false
          buildErrorMessage := ""
          buildLog := "" }
      else p,
   clear_allState sem)

/-- A `BuildResult` returned by the external builder plugin. -/
structure BuildResult where
  success : Bool
  srpmPath : String
  rpmPaths : List String
  logOutput : String
  errorMessage : String
deriving DecidableEq, Repr

/-- Everything external that `build_single_package_task` consults after it
holds a slot: builder availability, presence of spec/sources, the source
copy, target validation, and the two builder invocations. -/
structure BuildEnv where
  builderAvailable : Bool
  specExists : Bool
  sourcesExist : Bool
  sourcesDir : String
  copyOk : Bool
  copyError : String
  targetValid : Bool
  rhelVersion : String
  srpmResult : BuildResult
  rpmResult : BuildResult
deriving DecidableEq, Repr

/-- Exit of the admitted section of `build_single_package_task`: the package
record as persisted, whether each builder stage was invoked, and whether
`trigger_waiting_builds` ran. -/
structure BuildExit where
  pkg : Package
  srpmAttempted : Bool
  rpmAttempted : Bool
  triggeredWaiting : Bool
deriving DecidableEq, Repr

def mockUnavailableMsg : String :=
  "Mock builder is not available. " ++
  "Mock is required for building RPM packages. " ++
  "Please install Mock: sudo dnf install mock && sudo usermod -a -G mock $USER\n" ++
  "See docs/MOCK_SETUP.md for complete setup instructions."

/-- The body of `build_single_package_task` once `try_acquire` has admitted
it (source lines 474–689), translated clause by clause. -/
def build_single_admitted (env : BuildEnv) (p : Package) : BuildExit :=
  let target := "rhel-" ++ env.rhelVersion ++ "-x86_64"
  let p :=
    { p with
      buildStatus := .pending
      startedAtSet := false
      completedAtSet := false
      buildLog := ""
      buildErrorMessage := ""
      srpmPath := ""
      rpmPath := some "" }
  let p := { p with buildStatus := .building, startedAtSet := true }
  if !env.builderAvailable then
    { pkg := { p with
        buildStatus := .failed
        completedAtSet := true
        buildErrorMessage := mockUnavailableMsg }
      srpmAttempted := false, rpmAttempted := false, triggeredWaiting := false }
  else if !env.specExists then
    { pkg := { p with
        buildStatus := .failed
        completedAtSet := true
        buildErrorMessage := "No spec file found" }
      srpmAttempted := false, rpmAttempted := false, triggeredWaiting := false }
  else if !env.sourcesExist then
    { pkg := { p with
        buildStatus := .failed
        completedAtSet := true
        buildErrorMessage := "Source directory not found: " ++ env.sourcesDir ++
          ". Sources must be fetched at project level before building." }
      srpmAttempted := false, rpmAttempted := false, triggeredWaiting := false }
  else if !env.copyOk then
    { pkg := { p with
        buildStatus := .failed
        completedAtSet := true
        buildErrorMessage := "Failed to copy sources: " ++ env.copyError }
      srpmAttempted := false, rpmAttempted := false, triggeredWaiting := false }
  else if !env.targetValid then
    { pkg := { p with
        buildStatus := .failed
        completedAtSet := true
        buildErrorMessage := "Invalid build target: " ++ target }
      srpmAttempted := false, rpmAttempted := false, triggeredWaiting := false }
  else if !env.srpmResult.success then
    { pkg := { p with
        buildStatus := .failed
        completedAtSet := true
        buildErrorMessage := "SRPM build failed: " ++ env.srpmResult.errorMessage
        buildLog := env.srpmResult.logOutput
        analyzedErrors := analyze env.srpmResult.logOutput }
      srpmAttempted := true, rpmAttempted := false, triggeredWaiting := false }
  else if !env.rpmResult.success then
    { pkg := { p with
        buildStatus := .failed
        completedAtSet := true
        buildErrorMessage := "RPM build failed: " ++ env.rpmResult.errorMessage
        buildLog := env.rpmResult.logOutput
        analyzedErrors := analyze env.rpmResult.logOutput }
      srpmAttempted := true, rpmAttempted := true, triggeredWaiting := false }
  else
    { pkg := { p with
        buildStatus := .completed
        completedAtSet := true
        buildLog := env.rpmResult.logOutput
        srpmPath := env.srpmResult.srpmPath
        rpmPath := env.rpmResult.rpmPaths.head?
        analyzedErrors := analyze env.rpmResult.logOutput }
      srpmAttempted := true, rpmAttempted := true, triggeredWaiting := true }

/-- The Celery retry directive raised by `self.retry(...)`. -/
structure RetryDirective where
  countdown : Nat
  maxRetries : Option Nat
deriving DecidableEq, Repr

/-- The `except TimeoutError` handler of `build_single_package_task` (lines
691–705): when `try_acquire` found no free slot, demote the package to
`pending` unless it is already `pending`/`waiting_for_deps`, then retry with
`countdown=15, max_retries=None`. -/
def handle_no_slot (p : Package) : Package × RetryDirective :=
  (if !([.pending, .waiting_for_deps] :
        List BuildStatus).contains p.buildStatus then
     { p with buildStatus := .pending }
   else p,
   { countdown := 15, maxRetries := none })

/-! ## Scheduler: build requests and dependency re-triggering
(`backend/apps/packages/views.py`, `backend/apps/packages/tasks.py`) -/

def findPkg (db : List Package) (pid : Nat) : Option Package :=
  db.find? (fun p => p.id == pid)

/-- The per-dependency check `if dep_package and dep_package.build_status not
in ['completed', 'not_required']`: a dependency blocks its dependent exactly
when its target exists and has a status outside that list. -/
def depSatisfied (db : List Package) (depId : Nat) : Bool :=
  match findPkg db depId with
  | none => true
  | some q => q.buildStatus == .completed || q.buildStatus == .not_required

/-- The `unbuilt_deps` / `unbuilt` accumulation loops. -/
def unbuiltDeps (db : List Package) (p : Package) : List Nat :=
  p.deps.filter (fun d => !depSatisfied db d)

inductive BuildResponse where
  | badRequestNoSpec
  | badRequestNoSource
  | queuedWaiting (unbuilt : List Nat)
  | triggered
deriving DecidableEq, Repr

/-- `PackageViewSet.build_package` (views.py lines 245–300): validate spec
and sources; with unbuilt dependencies set `waiting_for_deps` (clearing the
error/log fields) without dispatching; otherwise dispatch
`build_single_package_task.delay(package.id)`.  Returns the updated package
row, the id handed to `.delay` (if any), and the response kind. -/
def build_package (db : List Package) (p : Package) :
    Package × Option Nat × BuildResponse :=
  if !p.hasSpec then
    (p, none, .badRequestNoSpec)
  else if !p.sourceFetched then
    (p, none, .badRequestNoSource)
  else
    let unbuilt := unbuiltDeps db p
    if !unbuilt.isEmpty then
      ({ p with
          buildStatus := .waiting_for_deps
          buildErrorMessage := ""
          buildLog := "" },
       none, .queuedWaiting unbuilt)
    else
      (p, some p.id, .triggered)

/-- `trigger_waiting_builds(completed_package_id)` (tasks.py lines 723–757):
for every package in `waiting_for_deps` with a dependency edge onto the
completed package, dispatch its build iff all of its dependencies are now
satisfied.  Returns the ids handed to `build_single_package_task.delay`. -/
def trigger_waiting_builds (db : List Package) (completed_id : Nat) :
    List Nat :=
  match findPkg db completed_id with
  | none => []
  | some _ =>
      (db.filter fun p =>
          p.buildStatus == .waiting_for_deps && p.deps.contains completed_id
        ).filterMap fun p =>
          if (unbuiltDeps db p).isEmpty then some p.id else none

/-! ## Build-order computation
(`backend/core/requirements_parser.py`, `DependencyResolver.calculate_build_order`)

The dependency tree (a Python dict mapping package name to dependency names)
is modelled as an association list in dict insertion order.  `remaining` is a
Python set; we keep it as a list in key order, which fixes an iteration order
without changing any membership. -/

/-- `in_degree[dep] += 1`, guarded by `if dep in in_degree` (a missing key is
left alone). -/
def incKey : List (String × Int) → String → List (String × Int)
  | [], _ => []
  | (k, v) :: rest, key =>
      if k = key then (k, v + 1) :: rest else (k, v) :: incKey rest key

/-- `in_degree[dep_pkg] -= 1`. -/
def decKey : List (String × Int) → String → List (String × Int)
  | [], _ => []
  | (k, v) :: rest, key =>
      if k = key then (k, v - 1) :: rest else (k, v) :: decKey rest key

def degOf (deg : List (String × Int)) (k : String) : Int :=
  ((deg.find? (fun kv => kv.1 == k)).map Prod.snd).getD 0

/-- `in_degree = {pkg: 0 for pkg in dependency_tree}` followed by the double
counting loop. -/
def initInDegree (tree : List (String × List String)) : List (String × Int) :=
  tree.foldl
    (fun deg kv => kv.2.foldl incKey deg)
    (tree.map (fun kv => (kv.1, (0 : Int))))

/-- The inner decrement loop run when `pkg` is removed: for every `dep_pkg`
whose dependency list contains `pkg`, decrement `in_degree[dep_pkg]`. -/
def applyDecrements (tree : List (String × List String))
    (deg : List (String × Int)) (pkg : String) : List (String × Int) :=
  tree.foldl
    (fun deg kv => if kv.2.contains pkg then decKey deg kv.1 else deg)
    deg

/-- The `while remaining:` loop of `calculate_build_order`.  `fuel` bounds
the number of iterations; every productive iteration removes at least one
package from `remaining`, so `remaining.length < fuel` makes the result
fuel-independent. -/
def buildOrderLoop (tree : List (String × List String)) :
    Nat → List String → List (String × Int) → List (List String) →
    List (List String)
  | 0, _, _, levels => levels
  | fuel + 1, remaining, deg, levels =>
      if remaining.isEmpty then levels
      else
        let current_level := remaining.filter (fun p => degOf deg p == 0)
        if current_level.isEmpty then
          levels ++ [remaining]
        else
          buildOrderLoop tree fuel
            (remaining.filter (fun p => !current_level.contains p))
            (current_level.foldl (applyDecrements tree) deg)
            (levels ++ [current_level])

/-- `DependencyResolver.calculate_build_order` (lines 195–244). -/
def calculate_build_order (tree : List (String × List String)) :
    List (List String) :=
  buildOrderLoop tree (tree.length + 1) (tree.map Prod.fst)
    (initInDegree tree) []

/-- Index of the level a package was placed in. -/
def levelOf (levels : List (List String)) (pkg : String) : Option Nat :=
  levels.findIdx? (fun lvl => lvl.contains pkg)

def depsOfKey (tree : List (String × List String)) (k : String) :
    List String :=
  ((tree.find? (fun kv => kv.1 == k)).map Prod.snd).getD []

/-- Bounded reachability along dependency edges (for stating acyclicity of a
concrete input graph). -/
def reachesB (tree : List (String × List String)) :
    Nat → String → String → Bool
  | 0, _, _ => false
  | fuel + 1, a, b =>
      (depsOfKey tree a).any (fun d => d == b || reachesB tree fuel d b)

/-- The input graph has no dependency cycle among its keys. -/
def acyclicB (tree : List (String × List String)) : Bool :=
  (tree.map Prod.fst).all (fun k => !reachesB tree tree.length k k)

/-- Modelled from the spec: the topological-validity property — every
package's level is strictly greater than the level of each of its (in-graph)
dependencies.  Stated from the spec's words to compare against what
`calculate_build_order` actually produces. -/
def topoValidB (tree : List (String × List String)) : Bool :=
  let levels := calculate_build_order tree
  tree.all fun kv =>
    (kv.2.filter (fun d => (tree.map Prod.fst).contains d)).all fun dep =>
      match levelOf levels kv.1, levelOf levels dep with
      | some lp, some ld => decide (ld < lp)
      | _, _ => false

/-! ## Concrete instances used to instantiate the theorems -/

def mkPkg (n : Nat) (st : BuildStatus) (ds : List Nat) : Package :=
  { id := n
    hasSpec := true
    sourceFetched := true
    buildStatus := st
    startedAtSet := true
    completedAtSet := false
    buildLog := ""
    buildErrorMessage := ""
    analyzedErrors := []
    srpmPath := ""
    rpmPath := some ""
    deps := ds }

/-- Three units in `building`. -/
def demoDb : List Package :=
  [mkPkg 1 .building [], mkPkg 2 .building [], mkPkg 3 .building []]

/-- The gate holding two slots. -/
def demoSem : SemState :=
  { members := ["build_package_1", "build_package_2"], ttl := some lock_timeout }

/-- A build environment in which every precondition holds but the SRPM stage
fails. -/
def demoEnvSrpmFail : BuildEnv :=
  { builderAvailable := true
    specExists := true
    sourcesExist := true
    sourcesDir := "/build/sources/foo"
    copyOk := true
    copyError := ""
    targetValid := true
    rhelVersion := "9"
    srpmResult :=
      { success := false
        srpmPath := ""
        rpmPaths := []
        logOutput := "error: invalid command " ++ sqs ++ "bdist_wheel" ++ sqs
        errorMessage := "mock exited 1" }
    rpmResult :=
      { success := true
        srpmPath := ""
        rpmPaths := ["/out/foo.rpm"]
        logOutput := ""
        errorMessage := "" } }

/-- A dependent (id 1) waiting on a dependency (id 2) that has completed. -/
def demoWaitDb : List Package :=
  [mkPkg 1 .waiting_for_deps [2], mkPkg 2 .completed []]

/-- A dependent whose dependency (id 2) is still unbuilt. -/
def demoBlockedDb : List Package :=
  [mkPkg 1 .not_built [2], mkPkg 2 .not_built []]

/-- `{"A": ["B"], "B": []}` — A depends on B; the graph is acyclic. -/
def exTree : List (String × List String) := [("A", ["B"]), ("B", [])]

/-- `{"A": ["B"], "B": ["A"]}` — a two-cycle. -/
def cycTree : List (String × List String) := [("A", ["B"]), ("B", ["A"])]

/-! ## Helper lemmas -/

theorem semStep_card_le (m : Nat) (s : SemState) (op : SemOp)
    (h : s.members.length ≤ m) : (semStep m s op).members.length ≤ m := by
  cases op with
  | acquire j =>
      simp only [semStep, acquireScript]
      split
      · split
        · simpa using h
        · simp only [List.length_append, List.length_singleton]
          omega
      · exact h
  | release j =>
      simpa [semStep, sremState] using
        le_trans (List.length_filter_le _ _) h
  | forceRelease j =>
      simpa [semStep, sremState] using
        le_trans (List.length_filter_le _ _) h
  | clearAll => simp [semStep, clear_allState]
  | tick d =>
      simp only [semStep, tickState]
      cases s.ttl with
      | none => exact h
      | some t =>
          by_cases hle : t ≤ d
          · simp [hle]
          · simpa [hle] using h

theorem not_mem_srem (s : SemState) (j : String) :
    j ∉ (sremState s j).members := by
  simp [sremState, List.mem_filter]

/-! ## Claim theorems -/

/-- C1.  For every cap and every interleaved sequence of store operations
issued by `acquire`/`try_acquire`/`release` callers, the count reported by
`get_active_count` never exceeds the cap; and with exactly one slot free,
two concurrent admissions for distinct fresh job ids admit exactly the first
one, because each admission is the single atomic check-and-reserve script. -/
theorem gate_cap_invariant_and_single_admission (max_concurrent : Nat) :
    (∀ (s : SemState) (ops : List SemOp),
        get_active_count s ≤ max_concurrent →
        get_active_count (semRun max_concurrent s ops) ≤ max_concurrent) ∧
    (∀ (s : SemState) (a b : String),
        get_active_count s + 1 = max_concurrent →
        s.members.contains a = false → s.members.contains b = false →
        a ≠ b →
        (acquireScript max_concurrent s a).1 = true ∧
        (acquireScript max_concurrent
          (acquireScript max_concurrent s a).2 b).1 = false) := by
  constructor
  · intro s ops h
    induction ops generalizing s with
    | nil => exact h
    | cons op rest ih => exact ih _ (semStep_card_le _ _ _ h)
  · intro s a b hone ha hb _
    have hlt : s.members.length < max_concurrent := by
      simp only [get_active_count] at hone
      omega
    refine ⟨by simp [acquireScript, hlt], ?_⟩
    have ha' : a ∉ s.members := by simpa using ha
    have hlen : ((acquireScript max_concurrent s a).2).members.length =
        max_concurrent := by
      simp [acquireScript, hlt, ha']
      simp only [get_active_count] at hone
      omega
    set s1 := (acquireScript max_concurrent s a).2 with hs1
    have hnlt : ¬ (s1.members.length < max_concurrent) := by omega
    simp [acquireScript, hnlt]

theorem gate_cap_invariant_and_single_admission_witness :
    get_active_count (semRun 2 demoSem
      [.acquire "a", .acquire "b", .release "build_package_1"]) ≤ 2 ∧
    (acquireScript 3 demoSem "a").1 = true ∧
    (acquireScript 3 (acquireScript 3 demoSem "a").2 "b").1 = false := by
  refine ⟨(gate_cap_invariant_and_single_admission 2).1 demoSem _ (by decide),
    ?_, ?_⟩
  · exact ((gate_cap_invariant_and_single_admission 3).2 demoSem "a" "b"
      (by decide) (by decide) (by decide) (by decide)).1
  · exact ((gate_cap_invariant_and_single_admission 3).2 demoSem "a" "b"
      (by decide) (by decide) (by decide) (by decide)).2

/-- C3.  At worker-pool startup, `reset_orphaned_builds` resets every
package in a non-terminal status (`pending`, `building`,
`waiting_for_deps`) to `not_built` and fully clears the concurrency gate, so
`get_active_count` reports 0 afterwards. -/
theorem startup_recovery_resets_and_clears (db : List Package)
    (sem : SemState) :
    (∀ (i : Nat) (p : Package), db[i]? = some p →
        (([.pending, .building, .waiting_for_deps] :
          List BuildStatus).contains p.buildStatus) = true →
        ∃ q, ((reset_orphaned_builds db sem).1)[i]? = some q ∧
          q.buildStatus = .not_built) ∧
    get_active_count (reset_orphaned_builds db sem).2 = 0 := by
  constructor
  · intro i p hip hst
    simp only [reset_orphaned_builds, List.getElem?_map, hip, Option.map_some']
    rw [if_pos hst]
    exact ⟨_, rfl, rfl⟩
  · rfl

theorem startup_recovery_witness :
    (∃ q, ((reset_orphaned_builds demoDb demoSem).1)[0]? = some q ∧
        q.buildStatus = .not_built) ∧
    (∃ q, ((reset_orphaned_builds demoDb demoSem).1)[1]? = some q ∧
        q.buildStatus = .not_built) ∧
    (∃ q, ((reset_orphaned_builds demoDb demoSem).1)[2]? = some q ∧
        q.buildStatus = .not_built) ∧
    get_active_count (reset_orphaned_builds demoDb demoSem).2 = 0 :=
  ⟨(startup_recovery_resets_and_clears demoDb demoSem).1 0
      (mkPkg 1 .building []) rfl (by decide),
   (startup_recovery_resets_and_clears demoDb demoSem).1 1
      (mkPkg 2 .building []) rfl (by decide),
   (startup_recovery_resets_and_clears demoDb demoSem).1 2
      (mkPkg 3 .building []) rfl (by decide),
   (startup_recovery_resets_and_clears demoDb demoSem).2⟩

/-- C5.  Every successful admission (re)stores the coarse TTL
(`lock_timeout`, 2 hours) on the reservation key; a full pool rejects new
admissions; and once the TTL elapses with no intervening refresh the store
deletes the key, after which any new caller's admission succeeds (for a
positive cap) even though the pool was previously full. -/
theorem ttl_reclaim (max_concurrent : Nat) :
    (∀ (s : SemState) (j : String),
        (acquireScript max_concurrent s j).1 = true →
        (acquireScript max_concurrent s j).2.ttl = some lock_timeout) ∧
    (∀ (s : SemState) (j : String),
        get_active_count s = max_concurrent →
        (acquireScript max_concurrent s j).1 = false) ∧
    (∀ (s : SemState) (j : String) (d : Nat),
        (acquireScript max_concurrent s j).1 = true →
        lock_timeout ≤ d →
        (tickState d (acquireScript max_concurrent s j).2).members = [] ∧
        (0 < max_concurrent → ∀ j2 : String,
          (acquireScript max_concurrent
            (tickState d (acquireScript max_concurrent s j).2) j2).1 =
              true)) := by
  refine ⟨?_, ?_, ?_⟩
  · intro s j hacq
    by_cases hlt : s.members.length < max_concurrent
    · simp [acquireScript, hlt]
    · simp [acquireScript, hlt] at hacq
  · intro s j hfull
    have : ¬ (s.members.length < max_concurrent) := by
      simp only [get_active_count] at hfull
      omega
    simp [acquireScript, this]
  · intro s j d hacq hd
    by_cases hlt : s.members.length < max_concurrent
    · have httl : (acquireScript max_concurrent s j).2.ttl =
          some lock_timeout := by simp [acquireScript, hlt]
      have hexp : tickState d (acquireScript max_concurrent s j).2 =
          { members := [], ttl := none } := by
        rw [tickState, httl]
        simp [hd]
      refine ⟨by rw [hexp], ?_⟩
      intro hpos j2
      rw [hexp]
      simp [acquireScript, hpos]
    · simp [acquireScript, hlt] at hacq

theorem ttl_reclaim_witness :
    (acquireScript 2 demoSem "c").1 = false ∧
    (acquireScript 3 demoSem "c").2.ttl = some lock_timeout ∧
    (tickState 9000 (acquireScript 3 demoSem "c").2).members = [] ∧
    (acquireScript 3 (tickState 9000 (acquireScript 3 demoSem "c").2)
      "d").1 = true :=
  ⟨(ttl_reclaim 2).2.1 demoSem "c" (by decide),
   (ttl_reclaim 3).1 demoSem "c" (by decide),
   ((ttl_reclaim 3).2.2 demoSem "c" 9000 (by decide) (by decide)).1,
   ((ttl_reclaim 3).2.2 demoSem "c" 9000 (by decide) (by decide)).2
     (by decide) "d"⟩

/-- C10.  Both context managers release the caller's own slot on every exit
from the admitted context — whether the body returns normally or raises —
so the job id is never left in the semaphore set once the `with` block is
over, no matter what other actors did to the store meanwhile. -/
theorem cm_always_releases_on_exit :
    (∀ (m : Nat) (s : SemState) (j : String) (bodyOps : List SemOp)
        (o : BodyOutcome),
        (try_acquireCM m s j bodyOps o).admitted = true →
        j ∉ (try_acquireCM m s j bodyOps o).state.members) ∧
    (∀ (m : Nat) (s : SemState) (j : String) (fuel : Nat)
        (envs : List (List SemOp)) (bodyOps : List SemOp) (o : BodyOutcome),
        (acquireCM m s j fuel envs bodyOps o).admitted = true →
        j ∉ (acquireCM m s j fuel envs bodyOps o).state.members) := by
  constructor
  · intro m s j bodyOps o hadm
    unfold try_acquireCM at hadm ⊢
    cases hscript : acquireScript m s j with
    | mk ok s1 =>
        cases ok with
        | true => exact not_mem_srem _ _
        | false =>
            rw [hscript] at hadm
            simp at hadm
  · intro m s j fuel envs bodyOps o hadm
    unfold acquireCM at hadm ⊢
    cases hloop : acquireLoop m j fuel s envs with
    | mk ok s1 =>
        cases ok with
        | true => exact not_mem_srem _ _
        | false =>
            rw [hloop] at hadm
            simp at hadm

theorem cm_always_releases_witness :
    (try_acquireCM 1 { members := [], ttl := none } "j"
        [SemOp.acquire "k"] BodyOutcome.raises).admitted = true ∧
    "j" ∉ (try_acquireCM 1 { members := [], ttl := none } "j"
        [SemOp.acquire "k"] BodyOutcome.raises).state.members ∧
    (acquireCM 1 { members := [], ttl := none } "j" 3 [] []
        BodyOutcome.raises).admitted = true ∧
    "j" ∉ (acquireCM 1 { members := [], ttl := none } "j" 3 [] []
        BodyOutcome.raises).state.members :=
  ⟨by decide,
   cm_always_releases_on_exit.1 1 _ "j" _ _ (by decide),
   by decide,
   cm_always_releases_on_exit.2 1 _ "j" 3 [] [] _ (by decide)⟩

/-- C4.  Whenever the SRPM stage (stage 3) runs and returns non-success, the
RPM stage (stage 4) is never attempted, and the failed stage's log is stored
in the unit's log field, its message in the error field, and the classifier's
findings on the unit, with the unit ending in `failed`. -/
theorem srpm_failure_isolates_rpm_stage (env : BuildEnv) (p : Package)
    (h1 : env.builderAvailable = true) (h2 : env.specExists = true)
    (h3 : env.sourcesExist = true) (h4 : env.copyOk = true)
    (h5 : env.targetValid = true) (h6 : env.srpmResult.success = false) :
    (build_single_admitted env p).srpmAttempted = true ∧
    (build_single_admitted env p).rpmAttempted = false ∧
    (build_single_admitted env p).pkg.buildStatus = .failed ∧
    (build_single_admitted env p).pkg.buildLog = env.srpmResult.logOutput ∧
    (build_single_admitted env p).pkg.buildErrorMessage =
      "SRPM build failed: " ++ env.srpmResult.errorMessage ∧
    (build_single_admitted env p).pkg.analyzedErrors =
      analyze env.srpmResult.logOutput := by
  simp [build_single_admitted, h1, h2, h3, h4, h5, h6]

theorem srpm_failure_isolation_witness :
    (build_single_admitted demoEnvSrpmFail (mkPkg 4 .not_built [])
      ).rpmAttempted = false ∧
    (build_single_admitted demoEnvSrpmFail (mkPkg 4 .not_built [])
      ).pkg.buildStatus = .failed ∧
    (build_single_admitted demoEnvSrpmFail (mkPkg 4 .not_built [])
      ).pkg.analyzedErrors =
        analyze demoEnvSrpmFail.srpmResult.logOutput := by
  have h := srpm_failure_isolates_rpm_stage demoEnvSrpmFail
    (mkPkg 4 .not_built []) rfl rfl rfl rfl rfl rfl
  exact ⟨h.2.1, h.2.2.1, h.2.2.2.2.2⟩

/-- C7 counterexample.  A unit in `waiting_for_deps` at the time of the
failed slot request is left in `waiting_for_deps`, not set to `pending`. -/
theorem no_slot_pending_counterexample :
    ¬ ((handle_no_slot (mkPkg 7 .waiting_for_deps [])).1.buildStatus =
        BuildStatus.pending) := by
  decide

/-- C7 (amended).  When the non-blocking slot request finds no free slot,
the unit is set back to `pending` unless it is already in `pending` or
`waiting_for_deps`, in which case its record is left untouched; in every
case the task is retried with the fixed countdown 15 and an unbounded retry
budget (`max_retries=None`). -/
theorem no_slot_demotes_and_retries (p : Package) :
    ((p.buildStatus ≠ .pending ∧ p.buildStatus ≠ .waiting_for_deps) →
      (handle_no_slot p).1 = { p with buildStatus := .pending }) ∧
    ((p.buildStatus = .pending ∨ p.buildStatus = .waiting_for_deps) →
      (handle_no_slot p).1 = p) ∧
    (handle_no_slot p).2.countdown = 15 ∧
    (handle_no_slot p).2.maxRetries = none := by
  refine ⟨?_, ?_, rfl, rfl⟩
  · intro ⟨hp, hw⟩
    simp [handle_no_slot, hp, hw]
  · intro h
    rcases h with h | h <;> simp [handle_no_slot, h]

theorem no_slot_demotes_witness :
    (handle_no_slot (mkPkg 8 .failed [])).1 =
      { mkPkg 8 .failed [] with buildStatus := .pending } ∧
    (handle_no_slot (mkPkg 9 .waiting_for_deps [])).1 =
      mkPkg 9 .waiting_for_deps [] ∧
    (handle_no_slot (mkPkg 8 .failed [])).2.countdown = 15 ∧
    (handle_no_slot (mkPkg 8 .failed [])).2.maxRetries = none :=
  ⟨(no_slot_demotes_and_retries (mkPkg 8 .failed [])).1
      ⟨by decide, by decide⟩,
   (no_slot_demotes_and_retries (mkPkg 9 .waiting_for_deps [])).2.1
      (Or.inr rfl),
   (no_slot_demotes_and_retries (mkPkg 8 .failed [])).2.2.1,
   (no_slot_demotes_and_retries (mkPkg 8 .failed [])).2.2.2⟩

/-- C9.  The classifier is a pure function of the log text — identical text
yields identical findings (same categories, messages, suggestions and item
lists in the same order) — and the empty log yields no findings. -/
theorem analyze_deterministic_and_empty :
    (∀ text : String, analyze text = analyze text) ∧ analyze "" = [] :=
  ⟨fun _ => rfl, rfl⟩

theorem depSatisfied_iff (db : List Package) (d : Nat) :
    depSatisfied db d = true ↔
      ∀ q : Package, findPkg db d = some q →
        (q.buildStatus = .completed ∨ q.buildStatus = .not_required) := by
  unfold depSatisfied
  cases h : findPkg db d with
  | none => simp
  | some q => simp [beq_iff_eq]

theorem unbuiltDeps_empty_iff (db : List Package) (p : Package) :
    (unbuiltDeps db p).isEmpty = true ↔
      ∀ d ∈ p.deps, depSatisfied db d = true := by
  simp [unbuiltDeps, List.isEmpty_iff, List.filter_eq_nil_iff]

/-- C6.  A build request for a unit with an unsatisfied dependency (status
neither `completed` nor `not_required`) parks it in `waiting_for_deps`
without dispatching; a pipeline run that ends `completed` invokes the
re-trigger pass; and the re-trigger pass dispatches a waiting unit that
depends on the completed one iff all of its dependencies are satisfied — no
external re-request is involved. -/
theorem waiting_deps_request_and_retrigger :
    (∀ (db : List Package) (p : Package),
        p.hasSpec = true → p.sourceFetched = true →
        (∃ d ∈ p.deps, ∃ q : Package, findPkg db d = some q ∧
            q.buildStatus ≠ .completed ∧ q.buildStatus ≠ .not_required) →
        (build_package db p).1.buildStatus = .waiting_for_deps ∧
        (build_package db p).2.1 = none) ∧
    (∀ (env : BuildEnv) (p : Package),
        (build_single_admitted env p).pkg.buildStatus = .completed →
        (build_single_admitted env p).triggeredWaiting = true) ∧
    (∀ (db : List Package) (completed_id : Nat) (c : Package),
        findPkg db completed_id = some c →
        (db.map Package.id).Nodup →
        ∀ p ∈ db,
          (p.id ∈ trigger_waiting_builds db completed_id ↔
            (p.buildStatus = .waiting_for_deps ∧ completed_id ∈ p.deps ∧
             ∀ d ∈ p.deps, ∀ q : Package, findPkg db d = some q →
               (q.buildStatus = .completed ∨
                q.buildStatus = .not_required)))) := by
  refine ⟨?_, ?_, ?_⟩
  · rintro db p hspec hsrc ⟨d, hd, q, hq, hqc, hqn⟩
    have hds : depSatisfied db d = false := by
      simp [depSatisfied, hq, beq_eq_false_iff_ne, hqc, hqn]
    have hdu : d ∈ unbuiltDeps db p :=
      List.mem_filter.2 ⟨hd, by simp [hds]⟩
    have hne : (unbuiltDeps db p).isEmpty = false := by
      have := List.ne_nil_of_mem hdu
      simp [List.isEmpty_iff, this]
    simp [build_package, hspec, hsrc, hne]
  · intro env p hc
    unfold build_single_admitted at hc ⊢
    repeat' split at hc
    all_goals simp_all
  · intro db cid c hc hnd p hp
    unfold trigger_waiting_builds
    rw [hc]
    constructor
    · intro hmem
      rw [List.mem_filterMap] at hmem
      obtain ⟨a, ha, hfa⟩ := hmem
      rw [List.mem_filter] at ha
      obtain ⟨hadb, hga⟩ := ha
      by_cases he : (unbuiltDeps db a).isEmpty = true
      · rw [if_pos he] at hfa
        have hid : a.id = p.id := by simpa using hfa
        have hap : a = p := List.inj_on_of_nodup_map hnd hadb hp hid
        subst hap
        rw [Bool.and_eq_true] at hga
        refine ⟨by simpa [beq_iff_eq] using hga.1, by simpa using hga.2, ?_⟩
        intro d hd q hq
        exact (depSatisfied_iff db d).1
          (((unbuiltDeps_empty_iff db a).1 he) d hd) q hq
      · rw [if_neg he] at hfa
        cases hfa
    · rintro ⟨hw, hdc, hall⟩
      rw [List.mem_filterMap]
      refine ⟨p, List.mem_filter.2 ⟨hp, by simp [hw, hdc]⟩, ?_⟩
      rw [if_pos]
      · exact (unbuiltDeps_empty_iff db p).2
          (fun d hd => (depSatisfied_iff db d).2 (hall d hd))

theorem waiting_deps_witness :
    (build_package demoBlockedDb (mkPkg 1 .not_built [2])).1.buildStatus =
      .waiting_for_deps ∧
    (build_package demoBlockedDb (mkPkg 1 .not_built [2])).2.1 = none ∧
    ((1 : Nat) ∈ trigger_waiting_builds demoWaitDb 2) := by
  have h1 := waiting_deps_request_and_retrigger.1 demoBlockedDb
    (mkPkg 1 .not_built [2]) rfl rfl
    ⟨2, by decide, mkPkg 2 .not_built [], by decide, by decide, by decide⟩
  have h2 := (waiting_deps_request_and_retrigger.2.2 demoWaitDb 2
    (mkPkg 2 .completed []) (by decide) (by decide)
    (mkPkg 1 .waiting_for_deps [2]) (by decide)).2
  refine ⟨h1.1, h1.2, ?_⟩
  have := h2 ⟨rfl, by decide, ?_⟩
  · exact this
  · intro d hd q hq
    have hd2 : d = 2 := by simpa [mkPkg] using hd
    subst hd2
    have hfind : findPkg demoWaitDb 2 = some (mkPkg 2 .completed []) := by
      decide
    rw [hfind] at hq
    injection hq with hq2
    rw [← hq2]
    exact Or.inl rfl

theorem buildOrderLoop_fuel_irrel (tree : List (String × List String)) :
    ∀ (n : Nat) (remaining : List String) (deg : List (String × Int))
      (levels : List (List String)) (f g : Nat),
      remaining.length ≤ n → remaining.length < f → remaining.length < g →
      buildOrderLoop tree f remaining deg levels =
        buildOrderLoop tree g remaining deg levels := by
  intro n
  induction n using Nat.strong_induction_on with
  | _ n ih =>
    intro remaining deg levels f g hn hf hg
    obtain ⟨f, rfl⟩ : ∃ f1, f = f1 + 1 := ⟨f - 1, by omega⟩
    obtain ⟨g, rfl⟩ : ∃ g1, g = g1 + 1 := ⟨g - 1, by omega⟩
    simp only [buildOrderLoop]
    split
    · rfl
    · split
      · rfl
      · rename_i hcur
        have hx : ∃ x, x ∈ remaining.filter (fun p => degOf deg p == 0) :=
          List.exists_mem_of_ne_nil _
            (by simpa [List.isEmpty_iff] using hcur)
        obtain ⟨x, hx⟩ := hx
        have hlt : (remaining.filter (fun p =>
            !(remaining.filter (fun p => degOf deg p == 0)).contains p)
              ).length < remaining.length := by
          rw [List.length_filter_lt_length_iff_exists]
          refine ⟨x, (List.mem_filter.1 hx).1, ?_⟩
          simp [hx]
        exact ih ((remaining.filter (fun p =>
            !(remaining.filter (fun p => degOf deg p == 0)).contains p)
              ).length)
          (by omega) _ _ _ f g le_rfl (by omega) (by omega)

/-- C8.  `calculate_build_order` terminates within a bounded number of
iterations on every input (any fuel beyond the key count computes the same
result as the `length+1` budget the definition uses), and any iteration that
still has remaining packages but none of in-degree zero emits all remaining
packages as one final level and stops. -/
theorem build_order_terminates_with_cycle_level :
    (∀ (tree : List (String × List String)) (f : Nat), tree.length < f →
        buildOrderLoop tree f (tree.map Prod.fst) (initInDegree tree) [] =
          calculate_build_order tree) ∧
    (∀ (tree : List (String × List String)) (fuel : Nat)
        (remaining : List String) (deg : List (String × Int))
        (levels : List (List String)),
        remaining ≠ [] →
        remaining.filter (fun p => degOf deg p == 0) = [] →
        buildOrderLoop tree (fuel + 1) remaining deg levels =
          levels ++ [remaining]) := by
  constructor
  · intro tree f hf
    apply buildOrderLoop_fuel_irrel tree (tree.map Prod.fst).length
    · exact le_rfl
    · simpa using hf
    · simp
  · intro tree fuel remaining deg levels hne hcur
    simp only [buildOrderLoop]
    rw [if_neg (by simpa [List.isEmpty_iff] using hne)]
    rw [if_pos (by simp [hcur])]

theorem build_order_cycle_witness :
    buildOrderLoop cycTree 10 (cycTree.map Prod.fst) (initInDegree cycTree)
        [] = calculate_build_order cycTree ∧
    buildOrderLoop cycTree 1 ["A", "B"] (initInDegree cycTree) [] =
      [["A", "B"]] ∧
    calculate_build_order cycTree = [["A", "B"]] :=
  ⟨build_order_terminates_with_cycle_level.1 cycTree 10 (by decide),
   build_order_terminates_with_cycle_level.2 cycTree 0 ["A", "B"]
     (initInDegree cycTree) [] (by decide) (by decide),
   by decide⟩

/-- C2 (refuted; the code contradicts its own docstring).  On the acyclic
graph `{"A": ["B"], "B": []}` — A depends on B — `calculate_build_order`
places A at level 0 and its dependency B at level 1, taking the
circular-dependency branch on a cycle-free input; so the computed level of a
package is not strictly greater than the levels of its dependencies, and the
topological-validity property fails. -/
theorem build_order_not_topological :
    acyclicB exTree = true ∧
    "B" ∈ depsOfKey exTree "A" ∧
    calculate_build_order exTree = [["A"], ["B"]] ∧
    levelOf (calculate_build_order exTree) "A" = some 0 ∧
    levelOf (calculate_build_order exTree) "B" = some 1 ∧
    topoValidB exTree = false := by
  refine ⟨by decide, by decide, by decide, by decide, by decide, by decide⟩

end ReqPM
